import Mathlib

/-!
Shallow embedding of the pinus RPC client orchestration layer,
src/packages/pinus-rpc/lib/rpc-client/client.ts.

Modelling conventions:
- JavaScript objects used as maps become Lean functions into Option.
- Optional / possibly-undefined values become Option; a JS falsiness
  check on an object-valued field is modelled by Option.isSome
  (objects and functions are always truthy in JS, and the fields in
  question only ever hold objects, functions or undefined).
- The external MailStation (transport) is modelled as a response
  oracle of type Station: per target server it yields the error or
  the response that the dispatch callback eventually receives.
- Callback-style completion is modelled by explicit result records;
  a field of type Option holding none where the source never invokes
  the callback records that the completion channel is never fired.
- Logging (logger.error / logger.warn) is modelled by a logs field
  holding the message constants of the source.
- The tracer (rpcDebugLog) only produces logging and is not modelled.
-/

set_option autoImplicit false

namespace PinusRpcClient

/-- Client state constant STATE_INITED, client.ts line 21. -/
def STATE_INITED : Nat := 1

/-- Client state constant STATE_STARTED, client.ts line 22. -/
def STATE_STARTED : Nat := 2

/-- Client state constant STATE_CLOSED, client.ts line 23. -/
def STATE_CLOSED : Nat := 3

/-- Error message of the start guard, client.ts line 104. -/
def alreadyStartedMsg : String := "rpc client has started."

/-- Log message of the start failure branch, client.ts line 113. -/
def clientStartFailLog : String := "[pinus-rpc] client start fail for "

/-- Warn message of stop on a non-started client, client.ts line 132. -/
def notRunningWarnLog : String := "[pinus-rpc] client is not running now."

/-- Error delivered by rpcInvoke outside STARTED, client.ts line 250. -/
def notRunningInvokeMsg : String := "[pinus-rpc] fail to do rpc invoke for client is not running"

/-- Error of the detached rejection in proxyCB outside STARTED, client.ts line 366. -/
def notRunningProxyMsg : String := "[pinus-rpc] fail to invoke rpc proxy for client is not running"

/-- Error of the detached rejection for short argument lists, client.ts line 374. -/
def invalidInvokeMsg : String := "[pinus-rpc] invalid rpc invoke, arguments length less than 2"

/-- Log format emitted for short argument lists, client.ts line 372. -/
def invalidInvokeLogFmt : String := "[pinus-rpc] invalid rpc invoke, arguments length less than 2, namespace: %j, serverType, %j, serviceName: %j, methodName: %j"

/-- Log emitted for a malformed custom router, client.ts line 468. -/
def invalidRouteFnLog : String := "[pinus-rpc] invalid route function."

/-- Log emitted for a non-string server id, client.ts line 492. -/
def serverIdNotStringLog : String := "[pinus-rpc] serverId is not a string : %s"

/-- Log emitted when getServersByType yields nothing, client.ts line 500. -/
def serversNotExistLog : String := "[pinus-rpc] serverType %s servers not exist"

/-- The wildcard routing key of broadcast mode, client.ts line 495. -/
def wildcard : String := "*"

/-- One entry of a server list, mirroring RpcServerInfo (id and serverType
are the only fields this core reads; transport fields are opaque). -/
structure RpcServerInfo where
  id : String
  serverType : String
deriving DecidableEq

/-- An opaque argument of a proxy-method call: the source only ever asks
whether the routing key is a string (typeof serverId !== "string"),
so arguments are modelled as strings or a non-string placeholder. -/
inductive Arg where
  | str (s : String)
  | other
deriving DecidableEq

/-- The rpc message record assembled by proxyCB, mirroring RpcMsg. -/
structure RpcMsg where
  «namespace» : String
  serverType : String
  service : String
  method : String
  args : List Arg
deriving DecidableEq

/-- RouteContext capability: getServersByType, with none modelling an
undefined / null (falsy) result and some a present array (an empty
array is a present, truthy value in JS). -/
def RouteContext : Type := String → Option (List RpcServerInfo)

/-- Shape of a routing function: (routeParam, msg, routeContext) with the
callback result flattened into an Except (error or server id). -/
def RouteFn : Type := Arg → RpcMsg → RouteContext → Except String String

/-- The runtime shape of client.router as sniffed by getRouteTarget:
a bare function, an object with a callable route field, or anything
else (the malformed-configuration case). -/
inductive RouterShape where
  | rfn (f : RouteFn)
  | robj (route : RouteFn)
  | other

/-- The context option: the only field the constructor reads is serverId. -/
structure Context where
  serverId : String
deriving DecidableEq

/-- Construction options, mirroring RpcClientOpts (the fields the embedded
operations read; mailboxFactory, rpcLogger, station and the debug
toggle feed only external collaborators or logging). -/
structure RpcClientOpts where
  context : Option Context
  routeContext : RouteContext
  router : Option RouterShape
  routerType : Option String
  clientId : Option String

/-- A generated proxy object: method name to implementation (implementations
are opaque to the registry logic, modelled as numbers). -/
def ProxyObj : Type := String → Option Nat

/-- The proxy registry: namespace to serverType to proxy object. -/
def Proxies : Type := String → String → Option ProxyObj

/-- Proxy description record, mirroring RemoteServerCode (namespace,
serverType; the path field is consumed only by the external Loader). -/
structure RemoteServerCode where
  «namespace» : String
  serverType : String
deriving DecidableEq

/-- The client record, mirroring the fields of class RpcClient that the
embedded operations read or write (wrrParam / chParam belong to the
external routing strategies; the station is passed as an oracle). -/
structure RpcClient where
  _context : Option Context
  _routeContext : RouteContext
  router : RouterShape
  routerType : Option String
  opts : RpcClientOpts
  proxies : Proxies
  state : Nat

/-- Modelled from the spec: the default router router.df from
rpc-client/router is not under src/; per spec section 6 an absent
router falls back to a random strategy. No claim depends on its
routing behavior, only on its shape (a bare function). -/
def dfRoute : RouteFn := fun _ _ _ => Except.error alreadyStartedMsg

/-- JS truthiness of a possibly-undefined string
(undefined and the empty string are falsy). -/
def strTruthy : Option String → Bool
  | none => false
  | some s => !s.isEmpty

/-- Embedding of the RpcClient constructor, client.ts lines 76-92:
fields are copied from opts, opts.router falls back to router.df,
a truthy context overwrites opts.clientId with context.serverId
(mutating the options object, which is then stored), the proxy
registry starts empty and the state starts at STATE_INITED. -/
def RpcClient.construct (opts : RpcClientOpts) : RpcClient :=
  let opts2 :=
    match opts.context with
    | some c => { opts with clientId := some c.serverId }
    | none => opts
  { _context := opts.context
    _routeContext := opts.routeContext
    router := opts.router.getD (RouterShape.rfn dfRoute)
    routerType := opts.routerType
    opts := opts2
    proxies := fun _ _ => none
    state := STATE_INITED }

/-- Embedding of the createClient factory, client.ts lines 552-555. -/
def createClient (opts : RpcClientOpts) : RpcClient :=
  RpcClient.construct opts

/-- Result of RpcClient.start: the client afterwards, what the callback
received (none models cb() with no error), whether station.start was
invoked, whether the station error listener got registered, logs. -/
structure StartResult where
  client : RpcClient
  cbErr : Option String
  stationStartCalled : Bool
  errorListenerRegistered : Bool
  logs : List String

/-- Embedding of RpcClient.start, client.ts lines 100-120. The external
station.start outcome is the parameter stationStart (some e models a
start error, none success). On the guard (state above INITED) the
callback gets the already-started error and station.start is not
invoked; on a station error the state is left untouched and the error
is forwarded to the callback; on success the error listener is
registered and the state becomes STATE_STARTED. -/
def RpcClient.start (c : RpcClient) (stationStart : Option String) : StartResult :=
  if c.state > STATE_INITED then
    { client := c
      cbErr := some alreadyStartedMsg
      stationStartCalled := false
      errorListenerRegistered := false
      logs := [] }
  else
    match stationStart with
    | some e =>
      { client := c
        cbErr := some e
        stationStartCalled := true
        errorListenerRegistered := false
        logs := [clientStartFailLog] }
    | none =>
      { client := { c with state := STATE_STARTED }
        cbErr := none
        stationStartCalled := true
        errorListenerRegistered := true
        logs := [] }

/-- Observable events of RpcClient.stop, in execution order. -/
inductive StopEvent where
  | warnLog
  | setState (s : Nat)
  | stationStop (force : Bool)
deriving DecidableEq

/-- Result of RpcClient.stop: the client afterwards and the ordered
event trace. -/
structure StopResult where
  client : RpcClient
  events : List StopEvent

/-- Embedding of RpcClient.stop, client.ts lines 128-137: outside
STATE_STARTED only a warning is logged and nothing changes; from
STATE_STARTED the state is set to STATE_CLOSED first and then
station.stop(force) is invoked (the event list keeps that order). -/
def RpcClient.stop (c : RpcClient) (force : Bool) : StopResult :=
  if c.state ≠ STATE_STARTED then
    { client := c, events := [StopEvent.warnLog] }
  else
    { client := { c with state := STATE_CLOSED }
      events := [StopEvent.setState STATE_CLOSED, StopEvent.stationStop force] }

/-- The external MailStation dispatch, modelled as a response oracle:
for a target server id and a message it yields the error or the
response that station.dispatch eventually hands to the callback. -/
def Station : Type := String → RpcMsg → Except String String

/-- Decidable equality for Except results, used to keep the result
records decidable. -/
instance instDecEqExcept {α β : Type} [DecidableEq α] [DecidableEq β] :
    DecidableEq (Except α β) := fun a b =>
  match a, b with
  | Except.error x, Except.error y =>
    if h : x = y then isTrue (by rw [h])
    else isFalse (by intro hh; cases hh; exact h rfl)
  | Except.error _, Except.ok _ => isFalse (by intro hh; cases hh)
  | Except.ok _, Except.error _ => isFalse (by intro hh; cases hh)
  | Except.ok x, Except.ok y =>
    if h : x = y then isTrue (by rw [h])
    else isFalse (by intro hh; cases hh; exact h rfl)

/-- Result of RpcClient.rpcInvoke: the station dispatches performed and
what the completion callback received. -/
structure InvokeResult where
  dispatched : List String
  result : Except String String
  logs : List String
deriving DecidableEq

/-- Embedding of RpcClient.rpcInvoke, client.ts lines 235-254: outside
STATE_STARTED the error is logged and the callback receives the
not-running error with no dispatch; otherwise the call is forwarded
to station.dispatch (the tracer only logs and is not modelled). -/
def RpcClient.rpcInvoke (c : RpcClient) (station : Station) (serverId : String)
    (msg : RpcMsg) : InvokeResult :=
  if c.state ≠ STATE_STARTED then
    { dispatched := []
      result := Except.error notRunningInvokeMsg
      logs := [notRunningInvokeMsg] }
  else
    { dispatched := [serverId]
      result := station serverId msg
      logs := [] }

/-- First error of a list of invocation results, mirroring the order in
which async.each reports: the aggregate callback receives the first
error, or success (none) when every invocation succeeded. -/
def firstErr (rs : List (Except String String)) : Option String :=
  rs.findSome? fun r =>
    match r with
    | Except.error e => some e
    | Except.ok _ => none

/-- Result of rpcToSpecifiedServer: the rpcInvoke calls made (target ids
in order), the station dispatches performed, what the completion
callback received (none models a callback that is never invoked;
some none models cb with no error; some (some e) models cb(e)),
and the logs. -/
structure SpecifiedResult where
  invoked : List String
  dispatched : List String
  cbOutcome : Option (Option String)
  logs : List String
deriving DecidableEq

/-- Embedding of rpcToSpecifiedServer, client.ts lines 488-516. A
non-string server id only logs: the callback is never invoked. The
wildcard resolves the server list through the route context; a falsy
(absent) list only logs and the callback is never invoked; a present
list (even an empty one, which is truthy in JS) is broadcast with
async.each: every server gets one rpcInvoke — each dispatch is
initiated before any completion callback can run (spec section 5
fan-out) — and the aggregate callback receives the first error or
success once all succeed. Any other string id gets one rpcInvoke whose
error (or success) is handed to the callback. -/
def rpcToSpecifiedServer (c : RpcClient) (station : Station) (msg : RpcMsg)
    (serverType : String) (serverId : Arg) : SpecifiedResult :=
  match serverId with
  | Arg.other =>
    { invoked := [], dispatched := [], cbOutcome := none
      logs := [serverIdNotStringLog] }
  | Arg.str sid =>
    if sid = wildcard then
      match c._routeContext serverType with
      | none =>
        { invoked := [], dispatched := [], cbOutcome := none
          logs := [serversNotExistLog] }
      | some servers =>
        let invs := servers.map fun s => c.rpcInvoke station s.id msg
        { invoked := servers.map fun s => s.id
          dispatched := (invs.map fun r => r.dispatched).flatten
          cbOutcome := some (firstErr (invs.map fun r => r.result))
          logs := (invs.map fun r => r.logs).flatten }
    else
      let inv := c.rpcInvoke station sid msg
      { invoked := [sid]
        dispatched := inv.dispatched
        cbOutcome := some (match inv.result with
          | Except.error e => some e
          | Except.ok _ => none)
        logs := inv.logs }

/-- Modelled from the spec: the constants.SCHEDULE routerType values live
in util/constants, which is not under src/; spec section 6 names the
four recognized values. Claims depend only on the values being
distinct, matching the switch cases of getRouteTarget. -/
def SCHEDULE_ROUNDROBIN : String := "roundrobin"

/-- Modelled from the spec: the weighted round-robin schedule constant. -/
def SCHEDULE_WEIGHT_ROUNDROBIN : String := "weight-roundrobin"

/-- Modelled from the spec: the least-active schedule constant. -/
def SCHEDULE_LEAST_ACTIVE : String := "least-active"

/-- Modelled from the spec: the consistent-hash schedule constant. -/
def SCHEDULE_CONSISTENT_HASH : String := "consistent-hash"

/-- Names of the built-in routing strategies of rpc-client/router
(rr, wrr, la, ch, rd), whose implementations are external to
client.ts and are therefore supplied to proxyCB as an oracle. -/
inductive StrategyName where
  | rr
  | wrr
  | la
  | ch
  | rd
deriving DecidableEq

/-- What getRouteTarget does, as data: either a built-in strategy is
selected and invoked with (client, serverType, msg) plus the callback
wrapper, or the custom router is called (bound to the router object
when it is an object with a route method) yielding an error or a
server id, or the malformed-router branch only logs and the callback
is never invoked. -/
inductive RouteTargetAction where
  | builtin (m : StrategyName) (c : RpcClient) (serverType : String) (msg : RpcMsg)
  | custom (bound : Bool) (result : Except String String)
  | invalidRouterLog

/-- Embedding of getRouteTarget, client.ts lines 428-476. A truthy
routerType selects the matching built-in strategy through the switch
(defaulting to the random strategy) and invokes it with
(client, serverType, msg, callback). Otherwise the custom router is
shape-sniffed: a bare function is called unbound, an object with a
callable route field is called bound to that object, and any other
shape only logs the invalid-route error — the callback is never
invoked. -/
def getRouteTarget (c : RpcClient) (serverType : String) (msg : RpcMsg)
    (routeParam : Arg) : RouteTargetAction :=
  if strTruthy c.routerType then
    let method :=
      if c.routerType = some SCHEDULE_ROUNDROBIN then StrategyName.rr
      else if c.routerType = some SCHEDULE_WEIGHT_ROUNDROBIN then StrategyName.wrr
      else if c.routerType = some SCHEDULE_LEAST_ACTIVE then StrategyName.la
      else if c.routerType = some SCHEDULE_CONSISTENT_HASH then StrategyName.ch
      else StrategyName.rd
    RouteTargetAction.builtin method c serverType msg
  else
    match c.router with
    | RouterShape.rfn f => RouteTargetAction.custom false (f routeParam msg c._routeContext)
    | RouterShape.robj f => RouteTargetAction.custom true (f routeParam msg c._routeContext)
    | RouterShape.other => RouteTargetAction.invalidRouterLog

/-- The built-in strategies of rpc-client/router as an oracle: for a
strategy name and the arguments (client, serverType, msg) it yields
the error or the server id the strategy passes to its callback
(the implementations are external to client.ts). -/
def StrategyOracle : Type := StrategyName → RpcClient → String → RpcMsg → Except String String

/-- Resolution of the promise a proxy-method call returns: pending
(never resolved), resolved with a response (strategy-mode success),
resolved with an error value in success position — resolve(err) as
done for router errors and for the whole specified-server path, where
a successful aggregate resolves with the null error — or rejected. -/
inductive ProxyOutcome where
  | pending
  | resolvedResp (resp : String)
  | resolvedErr (e : Option String)
  | rejectedErr (e : String)
deriving DecidableEq

/-- Result of proxyCB: whether a promise is returned at all (the
precondition branches return undefined), the error of the detached
Promise.reject a precondition branch creates, the rpcInvoke calls
made, the station dispatches performed, the logs, and the resolution
of the returned promise. -/
structure ProxyCBResult where
  returnsPromise : Bool
  detachedRejection : Option String
  invoked : List String
  dispatched : List String
  logs : List String
  outcome : ProxyOutcome
deriving DecidableEq

/-- The strategy-routed tail of proxyCB, client.ts lines 395-413: a
router error resolves the promise with that error; a routed server id
gets one rpcInvoke whose error rejects the promise and whose response
resolves it. -/
def routedInvoke (c : RpcClient) (station : Station) (msg : RpcMsg)
    (res : Except String String) : ProxyCBResult :=
  match res with
  | Except.error e =>
    { returnsPromise := true, detachedRejection := none, invoked := []
      dispatched := [], logs := [], outcome := ProxyOutcome.resolvedErr (some e) }
  | Except.ok sid =>
    let inv := c.rpcInvoke station sid msg
    { returnsPromise := true, detachedRejection := none, invoked := [sid]
      dispatched := inv.dispatched, logs := inv.logs
      outcome := match inv.result with
        | Except.error e => ProxyOutcome.rejectedErr e
        | Except.ok resp => ProxyOutcome.resolvedResp resp }

/-- Embedding of proxyCB, client.ts lines 362-416. Outside STATE_STARTED
a detached rejected promise is created and undefined is returned (the
returned completion channel never carries the failure). With fewer
than two arguments the error is logged, a detached rejected promise
is created and undefined is returned. Otherwise the routing key is
shifted off the argument list, the message is assembled, and a
promise is returned: specified-server mode hands the promise resolve
to rpcToSpecifiedServer as its callback (so the promise resolves with
the aggregate error value, and pends forever when that callback is
never invoked); strategy mode routes through getRouteTarget — the
malformed-router branch leaves the promise pending with no dispatch,
a routed result goes through routedInvoke. The strategy oracle models
the external rpc-client/router implementations. -/
def proxyCB (oracle : StrategyOracle) (c : RpcClient) (station : Station)
    (serviceName : String) (methodName : String) (args : List Arg)
    (attach : RemoteServerCode) (isToSpecifiedServer : Bool) : ProxyCBResult :=
  if c.state ≠ STATE_STARTED then
    { returnsPromise := false, detachedRejection := some notRunningProxyMsg
      invoked := [], dispatched := [], logs := [], outcome := ProxyOutcome.pending }
  else if args.length < 2 then
    { returnsPromise := false, detachedRejection := some invalidInvokeMsg
      invoked := [], dispatched := [], logs := [invalidInvokeLogFmt]
      outcome := ProxyOutcome.pending }
  else
    match args with
    | [] =>
      { returnsPromise := false, detachedRejection := none, invoked := []
        dispatched := [], logs := [], outcome := ProxyOutcome.pending }
    | routeParam :: rest =>
      let msg : RpcMsg :=
        { «namespace» := attach.«namespace»
          serverType := attach.serverType
          service := serviceName
          method := methodName
          args := rest }
      if isToSpecifiedServer then
        let r := rpcToSpecifiedServer c station msg attach.serverType routeParam
        { returnsPromise := true, detachedRejection := none
          invoked := r.invoked, dispatched := r.dispatched, logs := r.logs
          outcome := match r.cbOutcome with
            | none => ProxyOutcome.pending
            | some o => ProxyOutcome.resolvedErr o }
      else
        match getRouteTarget c attach.serverType msg routeParam with
        | RouteTargetAction.invalidRouterLog =>
          { returnsPromise := true, detachedRejection := none, invoked := []
            dispatched := [], logs := [invalidRouteFnLog]
            outcome := ProxyOutcome.pending }
        | RouteTargetAction.custom _ res => routedInvoke c station msg res
        | RouteTargetAction.builtin m cl st m2 =>
          routedInvoke c station msg (oracle m cl st m2)

/-- Embedding of insertProxy, client.ts lines 528-541: when an entry for
(namespace, serverType) already exists, every attribute of the new
proxy is copied over it (new attributes win, untouched old attributes
survive); otherwise the new proxy becomes the entry. -/
def insertProxy (proxies : Proxies) (ns : String) (st : String)
    (proxy : ProxyObj) : Proxies :=
  fun n s =>
    if n = ns ∧ s = st then
      match proxies ns st with
      | some old => some fun attr =>
          match proxy attr with
          | some v => some v
          | none => old attr
      | none => some proxy
    else proxies n s

/-- Embedding of RpcClient.addProxy, client.ts lines 146-158. The proxy
object built by generateProxy goes through the external Loader and
Proxy modules (spec section 6), so it is supplied as the proxy
parameter; none models a falsy record or a falsy generated proxy,
both of which are silent no-ops. -/
def RpcClient.addProxy (c : RpcClient) (record : Option RemoteServerCode)
    (proxy : Option ProxyObj) : RpcClient :=
  match record with
  | none => c
  | some rec =>
    match proxy with
    | none => c
    | some p =>
      { c with proxies := insertProxy c.proxies rec.«namespace» rec.serverType p }

/-- One public client operation, for reasoning about operation sequences.
opOther stands for the operations that leave the client record
untouched and only delegate to the station or read state: addServer,
addServers, removeServer, removeServers, replaceServers, rpcInvoke,
before, after, filter and setErrorHandler. -/
inductive ClientOp where
  | opStart (stationStart : Option String)
  | opStop (force : Bool)
  | opAddProxy (record : Option RemoteServerCode) (proxy : Option ProxyObj)
  | opOther

/-- Apply one public operation to the client. -/
def applyOp (c : RpcClient) : ClientOp → RpcClient
  | ClientOp.opStart r => (c.start r).client
  | ClientOp.opStop f => (c.stop f).client
  | ClientOp.opAddProxy rec p => c.addProxy rec p
  | ClientOp.opOther => c

/-- Apply a sequence of public operations to the client. -/
def runOps (c : RpcClient) (ops : List ClientOp) : RpcClient :=
  ops.foldl applyOp c

/-- Empty construction options used by the concrete scenarios. -/
def opts0 : RpcClientOpts :=
  { context := none, routeContext := fun _ => none, router := none
    routerType := none, clientId := none }

/-- A freshly constructed client (state INITED). -/
def clientInited : RpcClient := RpcClient.construct opts0

/-- A started client (construct, then a successful start). -/
def clientS : RpcClient := (clientInited.start none).client

/-- Mock response of the happy-path station oracle. -/
def respOk : String := "ok"

/-- Station oracle that always succeeds with respOk. -/
def station0 : Station := fun _ _ => Except.ok respOk

/-- Strategy oracle placeholder; no scenario below consults it. -/
def oracle0 : StrategyOracle := fun _ _ _ _ => Except.ok respOk

/-- Example namespace. -/
def nsSys : String := "sys"

/-- Example server type. -/
def stChat : String := "chat"

/-- Example service name. -/
def svcName : String := "chatRemote"

/-- Example method name. -/
def mthName : String := "send"

/-- Example proxy description record. -/
def attach0 : RemoteServerCode := { «namespace» := nsSys, serverType := stChat }

/-- Example rpc message. -/
def msgEx : RpcMsg :=
  { «namespace» := nsSys, serverType := stChat, service := svcName
    method := mthName, args := [] }

/-- Example argument list of length two. -/
def args0 : List Arg := [Arg.other, Arg.other]

/-- Example server ids of the broadcast scenario. -/
def sidA : String := "chat-1"

/-- Second example server id. -/
def sidB : String := "chat-2"

/-- Third example server id. -/
def sidC : String := "chat-3"

/-- A server list of three chat servers. -/
def serversB : List RpcServerInfo :=
  [{ id := sidA, serverType := stChat }
   , { id := sidB, serverType := stChat }
   , { id := sidC, serverType := stChat }]

/-- Route context exposing the three chat servers. -/
def rctxB : RouteContext := fun s => if s = stChat then some serversB else none

/-- Options wired to the three-server route context. -/
def optsB : RpcClientOpts :=
  { context := none, routeContext := rctxB, router := none
    routerType := none, clientId := none }

/-- Started client with three known chat servers. -/
def clientB : RpcClient := ((RpcClient.construct optsB).start none).client

/-- Mock failure of one broadcast invocation. -/
def errB : String := "mock-failure"

/-- Station oracle failing exactly on sidB. -/
def stationB : Station := fun sid _ =>
  if sid = sidB then Except.error errB else Except.ok respOk

/-- Route context exposing an empty (but present, hence truthy) server
list for the chat type. -/
def rctxEmpty : RouteContext := fun s => if s = stChat then some [] else none

/-- Options wired to the empty-list route context. -/
def optsEmptyList : RpcClientOpts :=
  { context := none, routeContext := rctxEmpty, router := none
    routerType := none, clientId := none }

/-- Started client whose chat server list is empty. -/
def clientEmptyList : RpcClient :=
  ((RpcClient.construct optsEmptyList).start none).client

/-- Options carrying a malformed custom router. -/
def optsBadRouter : RpcClientOpts :=
  { context := none, routeContext := fun _ => none
    router := some RouterShape.other, routerType := none, clientId := none }

/-- Started client with a malformed custom router. -/
def clientBadRouter : RpcClient :=
  ((RpcClient.construct optsBadRouter).start none).client

/-- Options selecting the least-active built-in strategy. -/
def optsLA : RpcClientOpts :=
  { context := none, routeContext := fun _ => none, router := none
    routerType := some SCHEDULE_LEAST_ACTIVE, clientId := none }

/-- Client with an explicit routerType. -/
def clientLA : RpcClient := RpcClient.construct optsLA

/-- Example non-wildcard server id. -/
def sidX : String := "area-7"

/-- A single-method proxy object. -/
def pA : ProxyObj := fun a => if a = mthName then some 1 else none

/-- Example second method name. -/
def mthKick : String := "kick"

/-- A disjoint single-method proxy object. -/
def pB : ProxyObj := fun a => if a = mthKick then some 2 else none

/-- Example context option. -/
def ctx0 : Context := { serverId := sidA }

/-- Options with both a context and an explicitly supplied clientId. -/
def optsC : RpcClientOpts :=
  { context := some ctx0, routeContext := fun _ => none, router := none
    routerType := none, clientId := some sidB }

/-- Example operation sequence: a successful start. -/
def ops8 : List ClientOp := [ClientOp.opStart none]

/-- Example continuation sequence: a stop. -/
def more8 : List ClientOp := [ClientOp.opStop true]

/-- Flattening a map into singleton lists is the plain map. -/
theorem flatten_map_singleton {α β : Type} (f : α → β) (l : List α) :
    (l.map fun a => [f a]).flatten = l.map f := by
  induction l with
  | nil => rfl
  | cons a t ih => simp [ih]

/-- Flattening a map into empty lists is empty. -/
theorem flatten_map_nil {α β : Type} (l : List α) :
    (l.map fun _ => ([] : List β)).flatten = [] := by
  induction l with
  | nil => rfl
  | cons a t ih => simp [ih]

/-- The aggregate broadcast outcome is success exactly when every
individual invocation result is a success. -/
theorem firstErr_eq_none_iff (rs : List (Except String String)) :
    firstErr rs = none ↔ ∀ r ∈ rs, ∃ v, r = Except.ok v := by
  induction rs with
  | nil => simp [firstErr]
  | cons a t ih =>
    cases a with
    | error e => simp [firstErr, List.findSome?]
    | ok v =>
      simp only [firstErr, List.findSome?] at ih ⊢
      simp [ih]

/-- C6: for every client whose state is STARTED or CLOSED, start fails
with the already-started error delivered to the callback and the
transport start is not invoked again; and when the transport start
reports an error from state INITED, the state remains INITED and that
error is surfaced to the caller. -/
theorem start_guard_and_error_surface (c : RpcClient) (r : Option String) (e : String) :
    ((c.state = STATE_STARTED ∨ c.state = STATE_CLOSED) →
      (c.start r).cbErr = some alreadyStartedMsg ∧
      (c.start r).stationStartCalled = false ∧
      (c.start r).client = c) ∧
    (c.state = STATE_INITED →
      (c.start (some e)).client = c ∧
      (c.start (some e)).client.state = STATE_INITED ∧
      (c.start (some e)).cbErr = some e) := by
  constructor
  · intro h
    have hgt : c.state > STATE_INITED := by
      cases h with
      | inl h => rw [h]; simp [STATE_INITED, STATE_STARTED]
      | inr h => rw [h]; simp [STATE_INITED, STATE_CLOSED]
    simp [RpcClient.start, hgt]
  · intro h
    have hgt : ¬ c.state > STATE_INITED := by
      rw [h]
      simp
    simp [RpcClient.start, hgt, h]

/-- Closed instance of start_guard_and_error_surface: the guard fires on
a started client, and a station start error leaves a fresh client in
state INITED with the error surfaced. -/
theorem start_guard_and_error_surface_witness :
    ((clientS.start none).cbErr = some alreadyStartedMsg ∧
     (clientS.start none).stationStartCalled = false ∧
     (clientS.start none).client = clientS) ∧
    ((clientInited.start (some clientStartFailLog)).client = clientInited ∧
     (clientInited.start (some clientStartFailLog)).client.state = STATE_INITED ∧
     (clientInited.start (some clientStartFailLog)).cbErr = some clientStartFailLog) :=
  ⟨(start_guard_and_error_surface clientS none clientStartFailLog).1 (Or.inl rfl),
   (start_guard_and_error_surface clientInited (some clientStartFailLog) clientStartFailLog).2 rfl⟩

/-- C7: stop outside STARTED is a warned no-op (client unchanged, no
transport stop); from STARTED the state is set to CLOSED before
station.stop is invoked, with the force flag forwarded (the event
trace keeps execution order). -/
theorem stop_state_machine (c : RpcClient) (force : Bool) :
    (c.state ≠ STATE_STARTED →
      c.stop force = { client := c, events := [StopEvent.warnLog] }) ∧
    (c.state = STATE_STARTED →
      (c.stop force).client.state = STATE_CLOSED ∧
      (c.stop force).events =
        [StopEvent.setState STATE_CLOSED, StopEvent.stationStop force]) := by
  constructor
  · intro h
    simp [RpcClient.stop, h]
  · intro h
    simp [RpcClient.stop, h]

/-- Closed instance of stop_state_machine on an inited and on a started
client. -/
theorem stop_state_machine_witness :
    (clientInited.stop true = { client := clientInited, events := [StopEvent.warnLog] }) ∧
    ((clientS.stop true).client.state = STATE_CLOSED ∧
     (clientS.stop true).events =
       [StopEvent.setState STATE_CLOSED, StopEvent.stationStop true]) :=
  ⟨(stop_state_machine clientInited true).1 (by decide),
   (stop_state_machine clientS true).2 rfl⟩

/-- C9: adding a proxy twice for the same (namespace, serverType) merges
the method sets: the resulting entry holds a method exactly when one
of the two proxies holds it, and no method of the first registration
is removed by the second. -/
theorem add_proxy_merges_methods (c : RpcClient) (rec : RemoteServerCode)
    (p1 p2 : ProxyObj) (attr : String)
    (h : c.proxies rec.«namespace» rec.serverType = none) :
    ∃ entry,
      ((c.addProxy (some rec) (some p1)).addProxy (some rec) (some p2)).proxies
          rec.«namespace» rec.serverType = some entry ∧
      ((entry attr).isSome ↔ (p1 attr).isSome ∨ (p2 attr).isSome) ∧
      ((p1 attr).isSome → (entry attr).isSome) := by
  refine ⟨fun a =>
    match p2 a with
    | some v => some v
    | none => p1 a, ?_, ?_, ?_⟩
  · simp [RpcClient.addProxy, insertProxy, h]
  · cases h2 : p2 attr <;> cases h1 : p1 attr <;> simp [h1, h2]
  · cases h2 : p2 attr <;> cases h1 : p1 attr <;> simp [h1, h2]

/-- Closed instance of add_proxy_merges_methods on a fresh client with
two disjoint single-method proxies. -/
theorem add_proxy_merges_methods_witness :
    clientInited.proxies attach0.«namespace» attach0.serverType = none ∧
    ∃ entry,
      ((clientInited.addProxy (some attach0) (some pA)).addProxy
          (some attach0) (some pB)).proxies
          attach0.«namespace» attach0.serverType = some entry ∧
      ((entry mthName).isSome ↔ (pA mthName).isSome ∨ (pB mthName).isSome) ∧
      ((pA mthName).isSome → (entry mthName).isSome) :=
  ⟨rfl, add_proxy_merges_methods clientInited attach0 pA pB mthName rfl⟩

/-- C10: constructing a client from options holding a context takes the
client id from context.serverId, overriding any supplied clientId
option; the stored options object holds the overridden value. -/
theorem construct_clientid_override (opts : RpcClientOpts) (ctx : Context)
    (h : opts.context = some ctx) :
    (RpcClient.construct opts).opts = { opts with clientId := some ctx.serverId } ∧
    (RpcClient.construct opts).opts.clientId = some ctx.serverId := by
  constructor
  · simp [RpcClient.construct, h]
  · simp [RpcClient.construct, h]

/-- Closed instance of construct_clientid_override: a supplied clientId
is overridden by the context server id. -/
theorem construct_clientid_override_witness :
    optsC.context = some ctx0 ∧
    ((RpcClient.construct optsC).opts = { optsC with clientId := some ctx0.serverId } ∧
     (RpcClient.construct optsC).opts.clientId = some ctx0.serverId) :=
  ⟨rfl, construct_clientid_override optsC ctx0 rfl⟩

/-- C1 evaluation at the failing inputs: a proxy call outside STARTED, and
a started proxy call with fewer than two arguments, both return no
promise at all — the failure exists only as a detached rejected
promise, the call's own completion channel never carries it — and no
transport dispatch is performed. -/
theorem proxy_precondition_detached_rejection :
    proxyCB oracle0 clientInited station0 svcName mthName args0 attach0 false =
      { returnsPromise := false, detachedRejection := some notRunningProxyMsg
        invoked := [], dispatched := [], logs := []
        outcome := ProxyOutcome.pending } ∧
    proxyCB oracle0 clientS station0 svcName mthName [Arg.other] attach0 false =
      { returnsPromise := false, detachedRejection := some invalidInvokeMsg
        invoked := [], dispatched := [], logs := [invalidInvokeLogFmt]
        outcome := ProxyOutcome.pending } :=
  ⟨rfl, rfl⟩

/-- C3 counterexample: on a started client, a non-string routing key in
specified-target mode is only logged — the completion callback is
never invoked (cbOutcome stays none), so the rejection is not
resolved through the completion channel as the claim states. -/
theorem nonstring_serverid_never_resolves :
    clientS.state = STATE_STARTED ∧
    (rpcToSpecifiedServer clientS station0 msgEx stChat Arg.other).cbOutcome = none ∧
    (rpcToSpecifiedServer clientS station0 msgEx stChat Arg.other).invoked = [] :=
  ⟨rfl, rfl, rfl⟩

/-- C3 as amended: a non-string routing key is rejected by logging only,
leaving the call unresolved (the completion callback is never
invoked) with no dispatch; a string literal server id other than the
wildcard performs exactly one rpcInvoke to that id, whose error or
success is handed to the completion callback. -/
theorem specified_target_dispatch (c : RpcClient) (station : Station)
    (msg : RpcMsg) (st : String) (sid : String)
    (hst : c.state = STATE_STARTED) (hw : sid ≠ wildcard) :
    rpcToSpecifiedServer c station msg st Arg.other =
      { invoked := [], dispatched := [], cbOutcome := none
        logs := [serverIdNotStringLog] } ∧
    ((rpcToSpecifiedServer c station msg st (Arg.str sid)).invoked = [sid] ∧
     (rpcToSpecifiedServer c station msg st (Arg.str sid)).dispatched = [sid] ∧
     (rpcToSpecifiedServer c station msg st (Arg.str sid)).cbOutcome =
       some (match station sid msg with
         | Except.error e => some e
         | Except.ok _ => none)) := by
  constructor
  · rfl
  · simp [rpcToSpecifiedServer, hw, RpcClient.rpcInvoke, hst]

/-- Closed instance of specified_target_dispatch on a started client and
a concrete non-wildcard id. -/
theorem specified_target_dispatch_witness :
    clientS.state = STATE_STARTED ∧ sidX ≠ wildcard ∧
    (rpcToSpecifiedServer clientS station0 msgEx stChat Arg.other =
      { invoked := [], dispatched := [], cbOutcome := none
        logs := [serverIdNotStringLog] } ∧
     ((rpcToSpecifiedServer clientS station0 msgEx stChat (Arg.str sidX)).invoked = [sidX] ∧
      (rpcToSpecifiedServer clientS station0 msgEx stChat (Arg.str sidX)).dispatched = [sidX] ∧
      (rpcToSpecifiedServer clientS station0 msgEx stChat (Arg.str sidX)).cbOutcome =
        some (match station0 sidX msgEx with
          | Except.error e => some e
          | Except.ok _ => none))) :=
  ⟨rfl, by decide,
   specified_target_dispatch clientS station0 msgEx stChat sidX rfl (by decide)⟩

/-- C4: on a started client with no routerType and a custom router that
is neither a function nor an object with a callable route field, the
configuration error is logged, a promise is returned but never
resolves, and no transport dispatch occurs. -/
theorem invalid_router_call_pends (oracle : StrategyOracle) (c : RpcClient)
    (station : Station) (sv mth : String) (args : List Arg)
    (attach : RemoteServerCode) (hst : c.state = STATE_STARTED)
    (hrt : strTruthy c.routerType = false) (hr : c.router = RouterShape.other)
    (hlen : 2 ≤ args.length) :
    proxyCB oracle c station sv mth args attach false =
      { returnsPromise := true, detachedRejection := none, invoked := []
        dispatched := [], logs := [invalidRouteFnLog]
        outcome := ProxyOutcome.pending } := by
  have hnl : ¬ args.length < 2 := Nat.not_lt.mpr hlen
  cases args with
  | nil => simp at hnl
  | cons a rest =>
    simp only [List.length_cons] at hnl
    have h1 : 1 ≤ rest.length := by omega
    simp [proxyCB, hst, hnl, hrt, hr, getRouteTarget, h1]

/-- Closed instance of invalid_router_call_pends on a started client
whose router option is a malformed shape. -/
theorem invalid_router_call_pends_witness :
    clientBadRouter.state = STATE_STARTED ∧
    strTruthy clientBadRouter.routerType = false ∧
    clientBadRouter.router = RouterShape.other ∧
    2 ≤ args0.length ∧
    proxyCB oracle0 clientBadRouter station0 svcName mthName args0 attach0 false =
      { returnsPromise := true, detachedRejection := none, invoked := []
        dispatched := [], logs := [invalidRouteFnLog]
        outcome := ProxyOutcome.pending } :=
  ⟨rfl, rfl, rfl, by decide,
   invalid_router_call_pends oracle0 clientBadRouter station0 svcName mthName
     args0 attach0 rfl rfl rfl (by decide)⟩

/-- C2 counterexample: on a started client whose server list for the
message serverType is the empty array (a present, truthy value), the
wildcard broadcast does not fail with a server-type-not-found error:
the aggregate succeeds immediately (callback with no error) and
nothing is logged. -/
theorem broadcast_empty_list_succeeds :
    clientEmptyList.state = STATE_STARTED ∧
    (rpcToSpecifiedServer clientEmptyList station0 msgEx stChat
        (Arg.str wildcard)).cbOutcome = some none ∧
    (rpcToSpecifiedServer clientEmptyList station0 msgEx stChat
        (Arg.str wildcard)).logs = [] :=
  ⟨rfl, rfl, rfl⟩

/-- C2 as amended: on a started client, a wildcard broadcast whose server
list lookup yields nothing only logs the missing-serverType error and
never invokes the completion callback; a present list (empty lists
included) gets one rpcInvoke and one station dispatch per listed
server, the aggregate callback receives the first failing
invocation's error when any invocation fails, and receives success
exactly when every invocation succeeds. -/
theorem broadcast_dispatch_behaviour (c : RpcClient) (station : Station)
    (msg : RpcMsg) (st : String) (hst : c.state = STATE_STARTED) :
    (c._routeContext st = none →
      rpcToSpecifiedServer c station msg st (Arg.str wildcard) =
        { invoked := [], dispatched := [], cbOutcome := none
          logs := [serversNotExistLog] }) ∧
    (∀ servers, c._routeContext st = some servers →
      (rpcToSpecifiedServer c station msg st (Arg.str wildcard)).invoked =
        servers.map (fun s => s.id) ∧
      (rpcToSpecifiedServer c station msg st (Arg.str wildcard)).dispatched =
        servers.map (fun s => s.id) ∧
      (rpcToSpecifiedServer c station msg st (Arg.str wildcard)).cbOutcome =
        some (firstErr (servers.map fun s => station s.id msg)) ∧
      (firstErr (servers.map fun s => station s.id msg) = none ↔
        ∀ s ∈ servers, ∃ v, station s.id msg = Except.ok v)) := by
  constructor
  · intro h
    simp [rpcToSpecifiedServer, h]
  · intro servers h
    have hinv : ∀ s : RpcServerInfo, c.rpcInvoke station s.id msg =
        { dispatched := [s.id], result := station s.id msg, logs := [] } := by
      intro s
      simp [RpcClient.rpcInvoke, hst]
    refine ⟨?_, ?_, ?_, ?_⟩
    · simp [rpcToSpecifiedServer, h]
    · simp [rpcToSpecifiedServer, h, hinv, List.map_map, Function.comp]
      exact flatten_map_singleton (fun s => s.id) servers
    · have hcomp : ((fun (r : InvokeResult) => r.result) ∘ fun s : RpcServerInfo =>
          ({ dispatched := [s.id], result := station s.id msg, logs := [] } : InvokeResult)) =
          fun s : RpcServerInfo => station s.id msg := rfl
      simp [rpcToSpecifiedServer, h, hinv, List.map_map, hcomp]
    · rw [firstErr_eq_none_iff]
      simp

/-- Closed instance of broadcast_dispatch_behaviour: three known chat
servers, one of which fails, give three invocations, three dispatches
and an aggregate failure. -/
theorem broadcast_dispatch_behaviour_witness :
    clientB.state = STATE_STARTED ∧
    clientB._routeContext stChat = some serversB ∧
    ((rpcToSpecifiedServer clientB stationB msgEx stChat (Arg.str wildcard)).invoked =
        serversB.map (fun s => s.id) ∧
     (rpcToSpecifiedServer clientB stationB msgEx stChat (Arg.str wildcard)).dispatched =
        serversB.map (fun s => s.id) ∧
     (rpcToSpecifiedServer clientB stationB msgEx stChat (Arg.str wildcard)).cbOutcome =
        some (firstErr (serversB.map fun s => stationB s.id msgEx)) ∧
     (firstErr (serversB.map fun s => stationB s.id msgEx) = none ↔
        ∀ s ∈ serversB, ∃ v, stationB s.id msgEx = Except.ok v)) :=
  ⟨rfl, rfl,
   (broadcast_dispatch_behaviour clientB stationB msgEx stChat rfl).2 serversB rfl⟩

/-- C5: with a truthy routerType, getRouteTarget selects the built-in
strategy matching the routerType value through the switch and invokes
it with (client, serverType, message) plus the callback wrapper; any
unrecognized value selects the random strategy. -/
theorem router_type_strategy_selection (c : RpcClient) (st : String)
    (msg : RpcMsg) (rp : Arg) (htruthy : strTruthy c.routerType = true) :
    (c.routerType = some SCHEDULE_ROUNDROBIN →
      getRouteTarget c st msg rp =
        RouteTargetAction.builtin StrategyName.rr c st msg) ∧
    (c.routerType = some SCHEDULE_WEIGHT_ROUNDROBIN →
      getRouteTarget c st msg rp =
        RouteTargetAction.builtin StrategyName.wrr c st msg) ∧
    (c.routerType = some SCHEDULE_LEAST_ACTIVE →
      getRouteTarget c st msg rp =
        RouteTargetAction.builtin StrategyName.la c st msg) ∧
    (c.routerType = some SCHEDULE_CONSISTENT_HASH →
      getRouteTarget c st msg rp =
        RouteTargetAction.builtin StrategyName.ch c st msg) ∧
    (c.routerType ≠ some SCHEDULE_ROUNDROBIN →
     c.routerType ≠ some SCHEDULE_WEIGHT_ROUNDROBIN →
     c.routerType ≠ some SCHEDULE_LEAST_ACTIVE →
     c.routerType ≠ some SCHEDULE_CONSISTENT_HASH →
      getRouteTarget c st msg rp =
        RouteTargetAction.builtin StrategyName.rd c st msg) := by
  refine ⟨?_, ?_, ?_, ?_, ?_⟩
  · intro h
    simp only [getRouteTarget, h]
    rfl
  · intro h
    simp only [getRouteTarget, h]
    rfl
  · intro h
    simp only [getRouteTarget, h]
    rfl
  · intro h
    simp only [getRouteTarget, h]
    rfl
  · intro h1 h2 h3 h4
    simp [getRouteTarget, htruthy, h1, h2, h3, h4]

/-- Closed instance of router_type_strategy_selection on a client whose
routerType is the least-active schedule constant. -/
theorem router_type_strategy_selection_witness :
    strTruthy clientLA.routerType = true ∧
    ((clientLA.routerType = some SCHEDULE_ROUNDROBIN →
      getRouteTarget clientLA stChat msgEx Arg.other =
        RouteTargetAction.builtin StrategyName.rr clientLA stChat msgEx) ∧
     (clientLA.routerType = some SCHEDULE_WEIGHT_ROUNDROBIN →
      getRouteTarget clientLA stChat msgEx Arg.other =
        RouteTargetAction.builtin StrategyName.wrr clientLA stChat msgEx) ∧
     (clientLA.routerType = some SCHEDULE_LEAST_ACTIVE →
      getRouteTarget clientLA stChat msgEx Arg.other =
        RouteTargetAction.builtin StrategyName.la clientLA stChat msgEx) ∧
     (clientLA.routerType = some SCHEDULE_CONSISTENT_HASH →
      getRouteTarget clientLA stChat msgEx Arg.other =
        RouteTargetAction.builtin StrategyName.ch clientLA stChat msgEx) ∧
     (clientLA.routerType ≠ some SCHEDULE_ROUNDROBIN →
      clientLA.routerType ≠ some SCHEDULE_WEIGHT_ROUNDROBIN →
      clientLA.routerType ≠ some SCHEDULE_LEAST_ACTIVE →
      clientLA.routerType ≠ some SCHEDULE_CONSISTENT_HASH →
      getRouteTarget clientLA stChat msgEx Arg.other =
        RouteTargetAction.builtin StrategyName.rd clientLA stChat msgEx)) :=
  ⟨rfl, router_type_strategy_selection clientLA stChat msgEx Arg.other rfl⟩

/-- A freshly constructed client starts in state INITED. -/
theorem construct_state (opts : RpcClientOpts) :
    (RpcClient.construct opts).state = STATE_INITED := rfl

/-- No single public operation lowers the client state. -/
theorem applyOp_state_mono (c : RpcClient) (op : ClientOp) :
    c.state ≤ (applyOp c op).state := by
  cases op with
  | opStart r =>
    simp only [applyOp, RpcClient.start]
    by_cases h : c.state > STATE_INITED
    · simp [h]
    · cases r with
      | some e => simp [h]
      | none =>
        simp only [h, if_false]
        simp only [STATE_INITED, STATE_STARTED, gt_iff_lt, not_lt] at h ⊢
        omega
  | opStop f =>
    simp only [applyOp, RpcClient.stop]
    by_cases h : c.state ≠ STATE_STARTED
    · simp [h]
    · simp only [h, if_false]
      simp only [ne_eq, not_not] at h
      simp only [h, STATE_STARTED, STATE_CLOSED]
      omega
  | opAddProxy rec p =>
    cases rec with
    | none => exact Nat.le_refl _
    | some rc =>
      cases p with
      | none => exact Nat.le_refl _
      | some pp => exact Nat.le_refl _
  | opOther => exact Nat.le_refl _

/-- Running any sequence of public operations never lowers the state. -/
theorem runOps_state_mono (c : RpcClient) (ops : List ClientOp) :
    c.state ≤ (runOps c ops).state := by
  induction ops generalizing c with
  | nil => exact Nat.le_refl _
  | cons op t ih =>
    have h1 : c.state ≤ (applyOp c op).state := applyOp_state_mono c op
    have h2 : (applyOp c op).state ≤ (runOps (applyOp c op) t).state := ih (applyOp c op)
    exact Nat.le_trans h1 h2

/-- Running an appended sequence equals running the pieces in order. -/
theorem runOps_append (c : RpcClient) (l1 l2 : List ClientOp) :
    runOps c (l1 ++ l2) = runOps (runOps c l1) l2 := by
  simp [runOps, List.foldl_append]

/-- C8: along every sequence of public operations from construction the
state evolves monotonically (extending the sequence never lowers the
state), and once the state has left INITED it never returns there. -/
theorem client_state_monotonic (opts : RpcClientOpts) (ops more : List ClientOp) :
    (runOps (RpcClient.construct opts) ops).state ≤
      (runOps (RpcClient.construct opts) (ops ++ more)).state ∧
    ((runOps (RpcClient.construct opts) ops).state ≠ STATE_INITED →
      (runOps (RpcClient.construct opts) (ops ++ more)).state ≠ STATE_INITED) := by
  have hmono : (runOps (RpcClient.construct opts) ops).state ≤
      (runOps (RpcClient.construct opts) (ops ++ more)).state := by
    rw [runOps_append]
    exact runOps_state_mono (runOps (RpcClient.construct opts) ops) more
  refine ⟨hmono, ?_⟩
  intro h
  have hini := runOps_state_mono (RpcClient.construct opts) ops
  rw [construct_state] at hini
  simp only [STATE_INITED] at h hini ⊢
  omega

/-- Closed instance of client_state_monotonic: after a successful start
the state has left INITED and a subsequent stop keeps it away. -/
theorem client_state_monotonic_witness :
    (runOps (RpcClient.construct opts0) ops8).state ≠ STATE_INITED ∧
    ((runOps (RpcClient.construct opts0) ops8).state ≤
       (runOps (RpcClient.construct opts0) (ops8 ++ more8)).state ∧
     (runOps (RpcClient.construct opts0) (ops8 ++ more8)).state ≠ STATE_INITED) :=
  ⟨by decide,
   ⟨(client_state_monotonic opts0 ops8 more8).1,
    (client_state_monotonic opts0 ops8 more8).2 (by decide)⟩⟩
